import Mathlib

/-!
Verification development for the family-calendar access-control lambdas
(`src/constructs/handler/ip-allowlist-manager.ts`).

The source file contains two relevant handlers:

* the CloudFormation custom-resource handler managing the IP allowlist
  stored in the DynamoDB configurations table (`updateIpAllowlist`,
  `getIpAllowlist`, custom-resource `handler`), embedded below in
  namespace `Cfn`;
* the authentication handler implementing dual validation
  (`validateIpAddress`, `validateCognitoToken`, `logSecurityAudit`,
  API-gateway `handler`), embedded below in namespace `Auth`.

External effects (DynamoDB reads, Cognito calls, `JSON.parse` of the raw
request body, clock) are modelled by an explicit environment record, and
the audit log and the sequence of external calls are returned as data so
that audit-completeness and call-ordering properties can be stated.
JavaScript truthiness on optional strings (`s || t` falls through both on
`undefined` and on the empty string) is modelled explicitly.
-/

/-- Boolean test: is the first list a prefix of the second (element-wise `==`). -/
def prefixB : List Char → List Char → Bool
  | [], _ => true
  | _ :: _, [] => false
  | a :: ps, b :: bs => a == b && prefixB ps bs

/-- Boolean test: does the second list occur as a contiguous sublist of the first argument list order: `sublistB p l` is true when `p` occurs contiguously inside `l`. -/
def sublistB (p : List Char) : List Char → Bool
  | [] => p.isEmpty
  | c :: rest => prefixB p (c :: rest) || sublistB p rest

/-- Substring test: `strContains s t = true` when the string `t` occurs as a contiguous substring of `s`. -/
def strContains (s t : String) : Bool := sublistB t.toList s.toList

/-- Remove the first occurrence of the pattern from the list, JavaScript
`String.replace(pattern, "")` with a string pattern (first occurrence only). -/
def stripFirst (p : List Char) : List Char → List Char
  | [] => []
  | c :: rest =>
    if prefixB p (c :: rest) then List.drop p.length (c :: rest)
    else c :: stripFirst p rest

/-- JavaScript `s.replace("Bearer ", "")`: removes the first occurrence of
the substring `"Bearer "`. -/
def stripBearer (s : String) : String := ⟨stripFirst "Bearer ".toList s.toList⟩

/-- A value thrown by JavaScript code: `isError` records whether it is an
`Error` instance (whose `message` is then used), mirroring
`error instanceof Error ? error.message : 'Unknown error'`. -/
structure JsThrown where
  isError : Bool
  message : String
deriving DecidableEq, Repr

namespace Auth

/-- The parsed request body (`AuthenticationRequest` in the source):
`accessToken?: string; requestIp?: string`. `requestIp` is never read by the
handler but is part of the interface. -/
structure AuthBody where
  accessToken : Option String
  requestIp : Option String
deriving DecidableEq, Repr

/-- The parts of the `APIGatewayProxyEvent` the handler reads:
`requestContext.identity.sourceIp` (a missing value is modelled as `none`),
the raw `body` string (`none` models JavaScript `null`), and
`headers?.Authorization` collapsed to one optional string (`none` when either
the headers object or the Authorization header is absent). -/
structure ApiEvent where
  sourceIp : Option String
  body : Option String
  authorizationHeader : Option String
deriving DecidableEq, Repr

/-- One Cognito user attribute (`Name` / `Value`). -/
structure CognitoAttr where
  name : String
  value : Option String
deriving DecidableEq, Repr

/-- Outcome of the external `GetUserCommand` call for this evaluation.
`reject` is the provider refusing the token (expired, revoked, unknown);
`unreachable` is a network/provider failure or timeout. The source code
catches both in the same `catch` block, so it cannot distinguish them;
the environment keeps them distinct so that conflation is statable. -/
inductive CognitoOutcome where
  | accept (username : Option String) (attrs : Option (List CognitoAttr))
  | reject (message : String)
  | unreachable (message : String)
deriving DecidableEq, Repr

/-- Decidable equality for `Except`, needed to evaluate concrete environments. -/
instance exceptDecEq {α β : Type} [DecidableEq α] [DecidableEq β] : DecidableEq (Except α β)
  | .ok a, .ok b =>
    if h : a = b then .isTrue (h ▸ rfl) else .isFalse (fun hh => h (Except.ok.inj hh))
  | .ok _, .error _ => .isFalse (fun hh => Except.noConfusion hh)
  | .error _, .ok _ => .isFalse (fun hh => Except.noConfusion hh)
  | .error a, .error b =>
    if h : a = b then .isTrue (h ▸ rfl) else .isFalse (fun hh => h (Except.error.inj hh))

/-- The environment of one evaluation: the clock (`new Date().toISOString()`),
the DynamoDB configurations table (`storeReachable` false models the
`GetCommand` throwing; `storeItem = none` models no `SYSTEM_CONFIG` row;
`some none` a row without the `allowedIPs` attribute; `some (some l)` a row
whose `allowedIPs` is `l`), the Cognito outcome, and the outcome of
`JSON.parse` on a non-empty body. -/
structure Env where
  timestamp : String
  storeReachable : Bool
  storeItem : Option (Option (List String))
  cognitoOutcome : CognitoOutcome
  parse : Except JsThrown AuthBody
deriving DecidableEq, Repr

/-- Audit record `SecurityAuditLog` from the source, minus the constant
`eventType: 'SECURITY_AUDIT'` wrapper added by `logSecurityAudit`. -/
structure SecurityAuditLog where
  timestamp : String
  ipAddress : String
  userId : Option String
  username : Option String
  authMethod : String
  result : String
  reason : Option String
deriving DecidableEq, Repr

/-- Response body `AuthenticationResponse` returned to the caller. -/
structure AuthenticationResponse where
  authorized : Bool
  reason : Option String
  userId : Option String
  username : Option String
deriving DecidableEq, Repr

/-- External calls issued during one evaluation, in order. -/
inductive ExtCall where
  | storeGet
  | cognitoGetUser (token : String)
deriving DecidableEq, Repr

/-- Full observable outcome of one evaluation: HTTP status, response body,
the audit records emitted via `logSecurityAudit`, and the external calls. -/
structure EvalOutcome where
  statusCode : Nat
  response : AuthenticationResponse
  audits : List SecurityAuditLog
  calls : List ExtCall
deriving DecidableEq, Repr

/-- Source expression `response.UserAttributes?.find(attr => attr.Name === 'sub')?.Value`. -/
def findSub (attrs : List CognitoAttr) : Option String :=
  match attrs.find? (fun a => a.name == "sub") with
  | none => none
  | some a => a.value

/-- Result shape of `validateCognitoToken`. -/
structure CognitoValidation where
  valid : Bool
  userId : Option String
  username : Option String
deriving DecidableEq, Repr

/-- Source function `validateIpAddress` (lines 249-279): issues a `GetCommand` for the
`SYSTEM_CONFIG` row; returns false when the call throws, when no item exists,
and otherwise tests `(Item.allowedIPs || []).includes(ipAddress)`. -/
def validateIpAddress (env : Env) (ipAddress : String) : Bool :=
  if env.storeReachable then
    match env.storeItem with
    | none => false
    | some attr => (attr.getD []).contains ipAddress
  else
    false

/-- Source function `validateCognitoToken` (lines 285-316): a successful `GetUserCommand`
yields `valid: true` with the username and the `sub` attribute; any thrown
error — provider rejection and provider unreachability alike — is caught and
yields `valid: false`. -/
def validateCognitoToken (env : Env) : CognitoValidation :=
  match env.cognitoOutcome with
  | .accept username attrs => ⟨true, findSub (attrs.getD []), username⟩
  | .reject _ => ⟨false, none, none⟩
  | .unreachable _ => ⟨false, none, none⟩

/-- The set of origins actually stored in the configuration row (empty when no
row exists or the row has no `allowedIPs` attribute). This is the ground
truth the specification's "stored allowlist" refers to, independent of
whether the store is currently reachable. -/
def storedAllowlist (env : Env) : List String :=
  match env.storeItem with
  | some (some l) => l
  | _ => []

/-- Source expression `event.requestContext.identity.sourceIp || 'unknown'`: a missing or empty
source address is replaced by the sentinel string `"unknown"`. -/
def sourceIpOf (ev : ApiEvent) : String :=
  match ev.sourceIp with
  | none => "unknown"
  | some s => if s = "" then "unknown" else s

/-- Source expression `event.body ? JSON.parse(event.body) : ...`: a `null` or empty body yields
the empty object without invoking the parser; a non-empty body yields the
parser outcome supplied by the environment. -/
def parseBody (env : Env) (ev : ApiEvent) : Except JsThrown AuthBody :=
  match ev.body with
  | none => Except.ok ⟨none, none⟩
  | some s => if s = "" then Except.ok ⟨none, none⟩ else env.parse

/-- Source expression `event.headers?.Authorization?.replace('Bearer ', '')`. -/
def headerToken (ev : ApiEvent) : Option String := ev.authorizationHeader.map stripBearer

/-- Source expression `body.accessToken || event.headers?.Authorization?.replace('Bearer ', '')`:
a present non-empty body token wins; otherwise fall through to the header. -/
def derivedToken (ev : ApiEvent) (body : AuthBody) : Option String :=
  match body.accessToken with
  | some t => if t = "" then headerToken ev else some t
  | none => headerToken ev

/-- The `catch` block of the handler (source lines 436-459): audit record with
`authMethod: 'system'` and reason `error.message` (or `'Unknown error'` for a
non-`Error` throw), HTTP 500, `'Internal server error'`. -/
def systemErrorOutcome (env : Env) (ev : ApiEvent) (e : JsThrown) : EvalOutcome :=
  { statusCode := 500
    response := ⟨false, some "Internal server error", none, none⟩
    audits := [⟨env.timestamp, sourceIpOf ev, none, none, "system", "failure",
      some (if e.isError then e.message else "Unknown error")⟩]
    calls := [] }

/-- The origin-denial block (source lines 341-362): audit with
`authMethod: 'ip-restriction'`, reason `'IP address not in allowlist'`,
HTTP 403, body reason `'Access denied'`. -/
def ipFailOutcome (env : Env) (ev : ApiEvent) : EvalOutcome :=
  { statusCode := 403
    response := ⟨false, some "Access denied", none, none⟩
    audits := [⟨env.timestamp, sourceIpOf ev, none, none, "ip-restriction", "failure",
      some "IP address not in allowlist"⟩]
    calls := [ExtCall.storeGet] }

/-- The missing-credential block (source lines 365-386): audit with
`authMethod: 'cognito'`, reason `'No access token provided'`, HTTP 401. -/
def credMissingOutcome (env : Env) (ev : ApiEvent) : EvalOutcome :=
  { statusCode := 401
    response := ⟨false, some "Authentication required", none, none⟩
    audits := [⟨env.timestamp, sourceIpOf ev, none, none, "cognito", "failure",
      some "No access token provided"⟩]
    calls := [ExtCall.storeGet] }

/-- The invalid-credential block (source lines 390-411): audit with
`authMethod: 'cognito'`, reason `'Invalid access token'`, HTTP 401. -/
def credInvalidOutcome (env : Env) (ev : ApiEvent) (t : String) : EvalOutcome :=
  { statusCode := 401
    response := ⟨false, some "Invalid credentials", none, none⟩
    audits := [⟨env.timestamp, sourceIpOf ev, none, none, "cognito", "failure",
      some "Invalid access token"⟩]
    calls := [ExtCall.storeGet, ExtCall.cognitoGetUser t] }

/-- The success block (source lines 413-435): audit with
`authMethod: 'dual-validation'`, `result: 'success'`, HTTP 200. -/
def successOutcome (env : Env) (ev : ApiEvent) (t : String) (cv : CognitoValidation) : EvalOutcome :=
  { statusCode := 200
    response := ⟨true, none, cv.userId, cv.username⟩
    audits := [⟨env.timestamp, sourceIpOf ev, cv.userId, cv.username, "dual-validation", "success", none⟩]
    calls := [ExtCall.storeGet, ExtCall.cognitoGetUser t] }

/-- The authentication handler (source lines 323-460). Body parse failure
lands in the `catch` block before any external call; otherwise the IP gate
runs (one store read), then the credential-presence gate, then Cognito. -/
def handler (env : Env) (ev : ApiEvent) : EvalOutcome :=
  match parseBody env ev with
  | .error e => systemErrorOutcome env ev e
  | .ok body =>
    let tokenOpt := derivedToken ev body
    if validateIpAddress env (sourceIpOf ev) then
      match tokenOpt with
      | none => credMissingOutcome env ev
      | some t =>
        if t = "" then credMissingOutcome env ev
        else
          let cv := validateCognitoToken env
          if cv.valid then successOutcome env ev t cv
          else credInvalidOutcome env ev t
    else
      ipFailOutcome env ev

/-- Does the environment's Cognito outcome accept the token? -/
def isAccept : CognitoOutcome → Bool
  | .accept _ _ => true
  | _ => false

/-- The fixed literal strings the handler ever places into audit-record
fields (methods, results, and the constant reason messages). -/
def fixedAuditStrings : List String :=
  ["ip-restriction", "cognito", "dual-validation", "system", "success", "failure",
   "IP address not in allowlist", "No access token provided", "Invalid access token",
   "Unknown error"]

/-- No field of the audit record contains `tok` as a substring. -/
def auditNoLeak (r : SecurityAuditLog) (tok : String) : Prop :=
  strContains r.timestamp tok = false
  ∧ strContains r.ipAddress tok = false
  ∧ (∀ s, r.userId = some s → strContains s tok = false)
  ∧ (∀ s, r.username = some s → strContains s tok = false)
  ∧ strContains r.authMethod tok = false
  ∧ strContains r.result tok = false
  ∧ (∀ s, r.reason = some s → strContains s tok = false)

end Auth

namespace Cfn

/-- Stored row `IpAllowlistConfig` kept under the `SYSTEM_CONFIG` key. -/
structure IpAllowlistConfig where
  allowedIPs : List String
  updatedAt : String
deriving DecidableEq, Repr

/-- The `SYSTEM_CONFIG` row of the configurations table (`none` when nothing
has ever been stored). -/
structure StoreState where
  item : Option IpAllowlistConfig
deriving DecidableEq, Repr

/-- Environment of the custom-resource handler: the clock and whether the
`PutCommand` throws. -/
structure CfnEnv where
  now : String
  putError : Option JsThrown
deriving DecidableEq, Repr

/-- Request type `event.RequestType` of a CloudFormation custom-resource event. -/
inductive RequestType where
  | Create
  | Update
  | Delete
deriving DecidableEq, Repr

/-- The parts of the custom-resource event the handler reads:
`RequestType`, `ResourceProperties.allowedIPs` (`none` when absent),
and the identifiers echoed into the response. -/
structure CfnEvent where
  requestType : RequestType
  allowedIPs : Option (List String)
  stackId : String
  requestId : String
  logicalResourceId : String
deriving DecidableEq, Repr

/-- The custom-resource response: `Status`, optional `Reason`,
`PhysicalResourceId`, echoed identifiers, and `Data.AllowedIPCount`
(`none` on the failure path, which carries no `Data`). -/
structure CfnResponse where
  status : String
  reason : Option String
  physicalResourceId : String
  stackId : String
  requestId : String
  logicalResourceId : String
  allowedIPCount : Option Nat
deriving DecidableEq, Repr

/-- Source function `updateIpAllowlist` (lines 34-51): unconditionally writes a fresh
`IpAllowlistConfig` row with the given list and the current time. No
validation of the strings is performed. A thrown `PutCommand` error leaves
the store unchanged. -/
def updateIpAllowlist (env : CfnEnv) (allowedIPs : List String) (st : StoreState) :
    Except JsThrown StoreState :=
  match env.putError with
  | some e => Except.error e
  | none =>
    let _ := st
    Except.ok ⟨some ⟨allowedIPs, env.now⟩⟩

/-- Source function `getIpAllowlist` (lines 56-67): `response.Item?.allowedIPs || []`. -/
def getIpAllowlist (st : StoreState) : List String :=
  match st.item with
  | none => []
  | some cfg => cfg.allowedIPs

/-- The custom-resource handler (source lines 102-147): Create/Update write
the supplied list (defaulting to `[]` when the property is absent); Delete
deliberately performs no write; the response echoes the event identifiers
with `Status: 'SUCCESS'`, or `'FAILED'` with the error message when a write
threw. -/
def handler (env : CfnEnv) (ev : CfnEvent) (st : StoreState) : CfnResponse × StoreState :=
  let allowedIPs := ev.allowedIPs.getD []
  let attempt : Except JsThrown StoreState :=
    match ev.requestType with
    | .Create => updateIpAllowlist env allowedIPs st
    | .Update => updateIpAllowlist env allowedIPs st
    | .Delete => Except.ok st
  match attempt with
  | .ok st2 =>
    (⟨"SUCCESS", none, "IpAllowlistConfig", ev.stackId, ev.requestId,
      ev.logicalResourceId, some allowedIPs.length⟩, st2)
  | .error e =>
    (⟨"FAILED", some (if e.isError then e.message else "Unknown error"),
      "IpAllowlistConfig", ev.stackId, ev.requestId, ev.logicalResourceId, none⟩, st)

end Cfn

/-! Concrete environments and events used by counterexamples and witnesses. -/

def c1Env : Auth.Env :=
  ⟨"t1", true, some (some ["unknown"]),
   Auth.CognitoOutcome.accept (some "alice") (some [⟨"sub", some "user-1"⟩]),
   Except.ok ⟨none, none⟩⟩

def c1Ev : Auth.ApiEvent := ⟨some "", none, some "Bearer tok123"⟩

def c1wEnv : Auth.Env :=
  ⟨"t1w", true, some (some ["5.5.5.5"]),
   Auth.CognitoOutcome.accept (some "bob") (some [⟨"sub", some "user-2"⟩]),
   Except.ok ⟨none, none⟩⟩

def c1wEv : Auth.ApiEvent := ⟨some "5.5.5.5", none, some "Bearer tk"⟩

def c2Env : Auth.Env :=
  ⟨"t2", true, some (some []), Auth.CognitoOutcome.accept (some "carol") none,
   Except.ok ⟨none, none⟩⟩

def c2Ev : Auth.ApiEvent := ⟨some "1.2.3.4", none, some "Bearer good"⟩

def c3Env : Auth.Env :=
  ⟨"t3", true, some (some ["7.7.7.7"]), Auth.CognitoOutcome.reject "NotAuthorized",
   Except.ok ⟨none, none⟩⟩

def c3Ev : Auth.ApiEvent := ⟨some "7.7.7.7", none, some "Bearer abc"⟩

def c4Env : Auth.Env :=
  ⟨"2024-01-01T00:00:00Z", true, some (some ["203.0.113.5"]),
   Auth.CognitoOutcome.reject "NotAuthorizedException", Except.ok ⟨none, none⟩⟩

def c4Ev : Auth.ApiEvent := ⟨some "203.0.113.5", none, some "Bearer a"⟩

def c4wEnv : Auth.Env :=
  ⟨"2024-02-02T00:00:00Z", true, some (some ["198.51.100.7"]),
   Auth.CognitoOutcome.accept (some "alice") (some [⟨"sub", some "user-1"⟩]),
   Except.ok ⟨none, none⟩⟩

def c4wEv : Auth.ApiEvent := ⟨some "198.51.100.7", none, some "Bearer SECRET-TOKEN-123"⟩

def c5Ev : Auth.ApiEvent := ⟨some "1.1.1.1", none, some "Bearer zz"⟩

def c5EnvStoreDown : Auth.Env :=
  ⟨"t5", false, some (some ["1.1.1.1"]), Auth.CognitoOutcome.accept (some "dave") none,
   Except.ok ⟨none, none⟩⟩

def c5EnvDown : Auth.Env :=
  ⟨"t5", true, some (some ["1.1.1.1"]), Auth.CognitoOutcome.unreachable "connect timeout",
   Except.ok ⟨none, none⟩⟩

def c5EnvReject : Auth.Env :=
  ⟨"t5", true, some (some ["1.1.1.1"]), Auth.CognitoOutcome.reject "connect timeout",
   Except.ok ⟨none, none⟩⟩

def c6Env : Auth.Env :=
  ⟨"t6", true, some (some ["unknown"]), Auth.CognitoOutcome.reject "nope",
   Except.ok ⟨none, none⟩⟩

def c6Ev : Auth.ApiEvent := ⟨some "", none, some "Bearer zz"⟩

def c6wEnv : Auth.Env :=
  ⟨"t6w", true, some (some ["8.8.8.8"]), Auth.CognitoOutcome.reject "nope",
   Except.ok ⟨none, none⟩⟩

def c6wEv : Auth.ApiEvent := ⟨some "9.9.9.9", none, some "Bearer zz"⟩

def c7Env : Auth.Env :=
  ⟨"t7", true, some (some []), Auth.CognitoOutcome.reject "r", Except.ok ⟨none, none⟩⟩

def c7Ev : Auth.ApiEvent := ⟨some "", none, none⟩

def c8Env : Auth.Env :=
  ⟨"t8", true, some (some [""]), Auth.CognitoOutcome.reject "x", Except.ok ⟨none, none⟩⟩

def c8Ev : Auth.ApiEvent := ⟨some "", none, none⟩

def c8wEnv : Auth.Env :=
  ⟨"t8w", true, some (some ["9.9.9.9"]), Auth.CognitoOutcome.reject "x",
   Except.ok ⟨none, none⟩⟩

def c8wEv : Auth.ApiEvent := ⟨some "9.9.9.9", none, none⟩

def c9Env : Cfn.CfnEnv := ⟨"2024-06-01", none⟩

def c9Ev : Cfn.CfnEvent :=
  ⟨Cfn.RequestType.Create, some ["definitely not an address"], "stack-1", "req-1", "res-1"⟩

def c9St : Cfn.StoreState := ⟨some ⟨["1.2.3.4"], "2023-01-01"⟩⟩

/-! Helper lemmas about the authentication handler. -/

/-- A present, non-empty source address is used as-is. -/
lemma sourceIpOf_eq {ev : Auth.ApiEvent} {ip : String}
    (h : ev.sourceIp = some ip) (hne : ip ≠ "") : Auth.sourceIpOf ev = ip := by
  simp [Auth.sourceIpOf, h, hne]

/-- A body-parse error can only come from the environment's parser. -/
lemma parse_error_src {env : Auth.Env} {ev : Auth.ApiEvent} {e : JsThrown}
    (h : Auth.parseBody env ev = Except.error e) : env.parse = Except.error e := by
  unfold Auth.parseBody at h
  cases hb : ev.body with
  | none => rw [hb] at h; exact absurd h (by simp)
  | some s =>
    rw [hb] at h
    by_cases hs : s = ""
    · simp [hs] at h
    · simpa [hs] using h

/-- An origin absent from the stored allowlist never passes the IP gate. -/
lemma validate_false_of_not_stored (env : Auth.Env) (ip : String)
    (h : (Auth.storedAllowlist env).contains ip = false) :
    Auth.validateIpAddress env ip = false := by
  cases hst : env.storeItem with
  | none => simp [Auth.validateIpAddress, hst]
  | some attr =>
    cases attr with
    | none => simp [Auth.validateIpAddress, hst]
    | some l =>
      have hl : l.contains ip = false := by
        have hs : Auth.storedAllowlist env = l := by simp [Auth.storedAllowlist, hst]
        rwa [hs] at h
      have hm : ip ∉ l := by simpa using hl
      simp [Auth.validateIpAddress, hst, hm]

/-- With the store reachable, a stored origin passes the IP gate. -/
lemma validate_true_of_stored (env : Auth.Env) (ip : String)
    (hr : env.storeReachable = true)
    (h : (Auth.storedAllowlist env).contains ip = true) :
    Auth.validateIpAddress env ip = true := by
  cases hst : env.storeItem with
  | none => simp [Auth.storedAllowlist, hst] at h
  | some attr =>
    cases attr with
    | none => simp [Auth.storedAllowlist, hst] at h
    | some l =>
      have hl : l.contains ip = true := by
        have hs : Auth.storedAllowlist env = l := by simp [Auth.storedAllowlist, hst]
        rwa [hs] at h
      have hm : ip ∈ l := by simpa using hl
      simp [Auth.validateIpAddress, hst, hm, hr]

/-- Passing the IP gate implies membership in the stored allowlist. -/
lemma stored_of_validate_true {env : Auth.Env} {ip : String}
    (hv : Auth.validateIpAddress env ip = true) :
    (Auth.storedAllowlist env).contains ip = true := by
  by_contra h
  have h2 : (Auth.storedAllowlist env).contains ip = false := by
    cases hc : (Auth.storedAllowlist env).contains ip with
    | false => rfl
    | true => exact absurd hc h
  rw [validate_false_of_not_stored env ip h2] at hv
  exact absurd hv (by simp)

/-- Token validation succeeds exactly when the provider accepts. -/
lemma valid_eq_isAccept (env : Auth.Env) :
    (Auth.validateCognitoToken env).valid = Auth.isAccept env.cognitoOutcome := by
  cases h : env.cognitoOutcome <;> simp [Auth.validateCognitoToken, Auth.isAccept, h]

/-- A successful token validation exposes the accepting provider outcome. -/
lemma accept_of_valid {env : Auth.Env}
    (h : (Auth.validateCognitoToken env).valid = true) :
    ∃ u a, env.cognitoOutcome = Auth.CognitoOutcome.accept u a
      ∧ Auth.validateCognitoToken env = ⟨true, Auth.findSub (a.getD []), u⟩ := by
  cases hc : env.cognitoOutcome with
  | accept u a => exact ⟨u, a, rfl, by simp [Auth.validateCognitoToken, hc]⟩
  | reject m => simp [Auth.validateCognitoToken, hc] at h
  | unreachable m => simp [Auth.validateCognitoToken, hc] at h

/-- Evaluation equation: body-parse failure lands in the catch block. -/
lemma handler_parse_error {env : Auth.Env} {ev : Auth.ApiEvent} {e : JsThrown}
    (hp : Auth.parseBody env ev = Except.error e) :
    Auth.handler env ev = Auth.systemErrorOutcome env ev e := by
  unfold Auth.handler
  rw [hp]

/-- Evaluation equation: failing the IP gate yields the origin denial. -/
lemma handler_ip_fail {env : Auth.Env} {ev : Auth.ApiEvent} {b : Auth.AuthBody}
    (hp : Auth.parseBody env ev = Except.ok b)
    (hv : Auth.validateIpAddress env (Auth.sourceIpOf ev) = false) :
    Auth.handler env ev = Auth.ipFailOutcome env ev := by
  unfold Auth.handler
  rw [hp]
  simp [hv]

/-- Evaluation equation: IP gate passed but no usable token. -/
lemma handler_cred_missing {env : Auth.Env} {ev : Auth.ApiEvent} {b : Auth.AuthBody}
    (hp : Auth.parseBody env ev = Except.ok b)
    (hv : Auth.validateIpAddress env (Auth.sourceIpOf ev) = true)
    (ht : Auth.derivedToken ev b = none ∨ Auth.derivedToken ev b = some "") :
    Auth.handler env ev = Auth.credMissingOutcome env ev := by
  unfold Auth.handler
  rw [hp]
  rcases ht with h | h <;> simp [hv, h]

/-- Evaluation equation: IP gate passed, token present, provider refuses. -/
lemma handler_cred_invalid {env : Auth.Env} {ev : Auth.ApiEvent} {b : Auth.AuthBody} {t : String}
    (hp : Auth.parseBody env ev = Except.ok b)
    (hv : Auth.validateIpAddress env (Auth.sourceIpOf ev) = true)
    (ht : Auth.derivedToken ev b = some t) (hte : t ≠ "")
    (hcv : (Auth.validateCognitoToken env).valid = false) :
    Auth.handler env ev = Auth.credInvalidOutcome env ev t := by
  unfold Auth.handler
  rw [hp]
  simp [hv, ht, hte, hcv]

/-- Evaluation equation: both gates pass. -/
lemma handler_success {env : Auth.Env} {ev : Auth.ApiEvent} {b : Auth.AuthBody} {t : String}
    (hp : Auth.parseBody env ev = Except.ok b)
    (hv : Auth.validateIpAddress env (Auth.sourceIpOf ev) = true)
    (ht : Auth.derivedToken ev b = some t) (hte : t ≠ "")
    (hcv : (Auth.validateCognitoToken env).valid = true) :
    Auth.handler env ev = Auth.successOutcome env ev t (Auth.validateCognitoToken env) := by
  unfold Auth.handler
  rw [hp]
  simp [hv, ht, hte, hcv]

/-- Every evaluation takes exactly one of the five return paths of the
source handler, with the conditions that guard it. -/
lemma handler_shape_full (env : Auth.Env) (ev : Auth.ApiEvent) :
    (∃ e, Auth.parseBody env ev = Except.error e
      ∧ Auth.handler env ev = Auth.systemErrorOutcome env ev e)
    ∨ (Auth.validateIpAddress env (Auth.sourceIpOf ev) = false
      ∧ Auth.handler env ev = Auth.ipFailOutcome env ev)
    ∨ (∃ b, Auth.parseBody env ev = Except.ok b
      ∧ Auth.validateIpAddress env (Auth.sourceIpOf ev) = true
      ∧ (Auth.derivedToken ev b = none ∨ Auth.derivedToken ev b = some "")
      ∧ Auth.handler env ev = Auth.credMissingOutcome env ev)
    ∨ (∃ b t, Auth.parseBody env ev = Except.ok b
      ∧ Auth.validateIpAddress env (Auth.sourceIpOf ev) = true
      ∧ Auth.derivedToken ev b = some t ∧ t ≠ ""
      ∧ (Auth.validateCognitoToken env).valid = false
      ∧ Auth.handler env ev = Auth.credInvalidOutcome env ev t)
    ∨ (∃ b t, Auth.parseBody env ev = Except.ok b
      ∧ Auth.validateIpAddress env (Auth.sourceIpOf ev) = true
      ∧ Auth.derivedToken ev b = some t ∧ t ≠ ""
      ∧ (Auth.validateCognitoToken env).valid = true
      ∧ Auth.handler env ev = Auth.successOutcome env ev t (Auth.validateCognitoToken env)) := by
  cases hp : Auth.parseBody env ev with
  | error e => exact Or.inl ⟨e, rfl, handler_parse_error hp⟩
  | ok b =>
    cases hv : Auth.validateIpAddress env (Auth.sourceIpOf ev) with
    | false => exact Or.inr (Or.inl ⟨rfl, handler_ip_fail hp hv⟩)
    | true =>
      cases ht : Auth.derivedToken ev b with
      | none =>
        exact Or.inr (Or.inr (Or.inl ⟨b, rfl, rfl, Or.inl ht, handler_cred_missing hp hv (Or.inl ht)⟩))
      | some t =>
        by_cases hte : t = ""
        · subst hte
          exact Or.inr (Or.inr (Or.inl ⟨b, rfl, rfl, Or.inr ht, handler_cred_missing hp hv (Or.inr ht)⟩))
        · cases hcv : (Auth.validateCognitoToken env).valid with
          | false =>
            exact Or.inr (Or.inr (Or.inr (Or.inl
              ⟨b, t, rfl, rfl, ht, hte, rfl, handler_cred_invalid hp hv ht hte hcv⟩)))
          | true =>
            exact Or.inr (Or.inr (Or.inr (Or.inr
              ⟨b, t, rfl, rfl, ht, hte, rfl, handler_success hp hv ht hte hcv⟩)))

/-! Claim theorems. The source renders the specification's abstract reason
codes as literal strings: `origin-not-allowed` is the audit reason
`"IP address not in allowlist"`, `credential-missing` is
`"No access token provided"`, and `credential-invalid` is
`"Invalid access token"`. -/

/-- Claim C10: for every CloudFormation custom-resource event with
RequestType Delete, the allowlist-manager handler performs no write — the
returned store state is exactly the input state, so the stored set and its
updatedAt are unchanged — and the response still has Status SUCCESS. -/
theorem C10_delete_preserves_store (env : Cfn.CfnEnv) (props : Option (List String))
    (sid rid lid : String) (st : Cfn.StoreState) :
    Cfn.handler env ⟨Cfn.RequestType.Delete, props, sid, rid, lid⟩ st =
      (⟨"SUCCESS", none, "IpAllowlistConfig", sid, rid, lid, some (props.getD []).length⟩, st) :=
  rfl

/-- Claim C9, counterexample: `replace` does not reject a malformed origin
string. A Create event carrying the plainly malformed origin
`"definitely not an address"` succeeds (Status SUCCESS) and fully overwrites
the previously stored set, instead of raising a ValidationError and leaving
the store unchanged as the claim requires. -/
theorem C9_counterexample :
    Cfn.handler c9Env c9Ev c9St =
      (⟨"SUCCESS", none, "IpAllowlistConfig", "stack-1", "req-1", "res-1", some 1⟩,
       ⟨some ⟨["definitely not an address"], "2024-06-01"⟩⟩) := by decide

/-- Claim C9, amended: the store's replace operation performs no validation
at all — whenever the put succeeds it atomically overwrites the stored set
in full with exactly the supplied list (any strings, malformed or not) and a
fresh updatedAt, and the Create/Update paths of the handler report SUCCESS
with that new state. -/
theorem C9_replace_overwrites (env : Cfn.CfnEnv) (ips : List String) (st : Cfn.StoreState)
    (h : env.putError = none) :
    Cfn.updateIpAllowlist env ips st = Except.ok ⟨some ⟨ips, env.now⟩⟩
    ∧ ∀ ev : Cfn.CfnEvent,
        (ev.requestType = Cfn.RequestType.Create ∨ ev.requestType = Cfn.RequestType.Update) →
        ev.allowedIPs = some ips →
        Cfn.handler env ev st =
          (⟨"SUCCESS", none, "IpAllowlistConfig", ev.stackId, ev.requestId,
            ev.logicalResourceId, some ips.length⟩, ⟨some ⟨ips, env.now⟩⟩) := by
  constructor
  · simp [Cfn.updateIpAllowlist, h]
  · intro ev hrt hips
    rcases hrt with h1 | h1 <;> simp [Cfn.handler, Cfn.updateIpAllowlist, h, h1, hips]

/-- Claim C9, witness: the amended theorem applied at a concrete input. -/
theorem C9_witness :
    Cfn.updateIpAllowlist ⟨"2024-06-01", none⟩ ["10.0.0.1"] ⟨none⟩ =
      Except.ok ⟨some ⟨["10.0.0.1"], "2024-06-01"⟩⟩ :=
  (C9_replace_overwrites ⟨"2024-06-01", none⟩ ["10.0.0.1"] ⟨none⟩ rfl).1

/-- Claim C2: fail-closed on an empty or never-set allowlist. Whenever the
configuration row is absent, lacks the allowedIPs attribute, or holds an
empty list, every evaluation whose body parses denies with HTTP 403 and the
audit reason `"IP address not in allowlist"` (origin-not-allowed), regardless
of the credential and of the Cognito outcome; and `getIpAllowlist` on a store
where nothing has ever been written returns the empty set. -/
theorem C2_fail_closed_empty_allowlist (env : Auth.Env) (ev : Auth.ApiEvent)
    (hstore : env.storeItem = none ∨ env.storeItem = some none
      ∨ env.storeItem = some (some []))
    (hparse : ∃ b, Auth.parseBody env ev = Except.ok b) :
    Auth.handler env ev = Auth.ipFailOutcome env ev
    ∧ (Auth.handler env ev).response.authorized = false
    ∧ (Auth.handler env ev).statusCode = 403
    ∧ (Auth.handler env ev).audits =
        [⟨env.timestamp, Auth.sourceIpOf ev, none, none, "ip-restriction", "failure",
          some "IP address not in allowlist"⟩]
    ∧ Cfn.getIpAllowlist ⟨none⟩ = [] := by
  obtain ⟨b, hb⟩ := hparse
  have hm : (Auth.storedAllowlist env).contains (Auth.sourceIpOf ev) = false := by
    rcases hstore with h | h | h <;> simp [Auth.storedAllowlist, h]
  have hv := validate_false_of_not_stored env (Auth.sourceIpOf ev) hm
  have hh : Auth.handler env ev = Auth.ipFailOutcome env ev := handler_ip_fail hb hv
  exact ⟨hh, by rw [hh]; rfl, by rw [hh]; rfl, by rw [hh]; rfl, rfl⟩

/-- Claim C2, witness: a stored empty allowlist, a request from a real
address with a credential the provider would accept, still denied 403. -/
theorem C2_witness :
    (Auth.handler c2Env c2Ev).statusCode = 403
    ∧ (Auth.handler c2Env c2Ev).response.authorized = false :=
  ⟨(C2_fail_closed_empty_allowlist c2Env c2Ev (Or.inr (Or.inr rfl)) ⟨⟨none, none⟩, rfl⟩).2.2.1,
   (C2_fail_closed_empty_allowlist c2Env c2Ev (Or.inr (Or.inr rfl)) ⟨⟨none, none⟩, rfl⟩).2.1⟩

/-- Claim C7, counterexample: a request with an empty originAddress is NOT
rejected with a dedicated origin-missing reason before any store access.
The handler substitutes the sentinel `"unknown"`, performs the store read
(`storeGet` appears in the call trace), and denies with the generic
origin reason `"IP address not in allowlist"`. -/
theorem C7_counterexample :
    c7Ev.sourceIp = some ""
    ∧ (Auth.handler c7Env c7Ev).calls = [Auth.ExtCall.storeGet]
    ∧ (Auth.handler c7Env c7Ev).audits =
        [⟨"t7", "unknown", none, none, "ip-restriction", "failure",
          some "IP address not in allowlist"⟩] := by decide

/-- Claim C7, amended: an empty or missing originAddress is replaced by the
sentinel `"unknown"` and evaluated like any other origin: the allowlist
store IS read, and (whenever `"unknown"` is not itself a stored origin) the
request is denied as origin-not-allowed; no origin-missing reason code
exists. -/
theorem C7_empty_origin_hits_store (env : Auth.Env) (ev : Auth.ApiEvent)
    (h1 : ev.sourceIp = some "" ∨ ev.sourceIp = none)
    (h2 : ∃ b, Auth.parseBody env ev = Except.ok b)
    (h3 : (Auth.storedAllowlist env).contains "unknown" = false) :
    Auth.handler env ev = Auth.ipFailOutcome env ev
    ∧ (Auth.handler env ev).calls = [Auth.ExtCall.storeGet]
    ∧ (Auth.handler env ev).audits =
        [⟨env.timestamp, "unknown", none, none, "ip-restriction", "failure",
          some "IP address not in allowlist"⟩] := by
  obtain ⟨b, hb⟩ := h2
  have hs : Auth.sourceIpOf ev = "unknown" := by
    rcases h1 with h | h <;> simp [Auth.sourceIpOf, h]
  have hv : Auth.validateIpAddress env (Auth.sourceIpOf ev) = false := by
    rw [hs]; exact validate_false_of_not_stored env "unknown" h3
  have hh : Auth.handler env ev = Auth.ipFailOutcome env ev := handler_ip_fail hb hv
  refine ⟨hh, by rw [hh]; rfl, ?_⟩
  rw [hh]
  simp [Auth.ipFailOutcome, hs]

/-- Claim C7, witness: the amended theorem applied at the counterexample
input. -/
theorem C7_witness : Auth.handler c7Env c7Ev = Auth.ipFailOutcome c7Env c7Ev :=
  (C7_empty_origin_hits_store c7Env c7Ev (Or.inl rfl) ⟨⟨none, none⟩, rfl⟩ (by decide)).1

/-- Claim C8, counterexample: the request origin is the empty string and the
stored allowlist contains exactly that empty string, and no credential is
supplied. The claim requires `credential-missing`; the code substitutes
`"unknown"` for the empty origin before the membership test, so the request
is instead denied 403 with the origin reason. -/
theorem C8_counterexample :
    (Auth.storedAllowlist c8Env).contains "" = true
    ∧ Auth.derivedToken c8Ev ⟨none, none⟩ = none
    ∧ (Auth.handler c8Env c8Ev).statusCode = 403
    ∧ (Auth.handler c8Env c8Ev).audits =
        [⟨"t8", "unknown", none, none, "ip-restriction", "failure",
          some "IP address not in allowlist"⟩] := by decide

/-- Claim C8, amended: for every request with a present, NON-EMPTY
originAddress that is in the stored allowlist (store reachable), whose body
parses and which supplies no usable credential (none, or empty after
JavaScript falsiness), the evaluation is the credential-missing denial:
authorized false, HTTP 401, audit reason `"No access token provided"`, and
the identity verifier is never invoked. -/
theorem C8_credential_missing (env : Auth.Env) (ev : Auth.ApiEvent) (ip : String)
    (b : Auth.AuthBody)
    (hip : ev.sourceIp = some ip) (hne : ip ≠ "")
    (hreach : env.storeReachable = true)
    (hmem : (Auth.storedAllowlist env).contains ip = true)
    (hparse : Auth.parseBody env ev = Except.ok b)
    (htok : Auth.derivedToken ev b = none ∨ Auth.derivedToken ev b = some "") :
    Auth.handler env ev = Auth.credMissingOutcome env ev
    ∧ (Auth.handler env ev).response.authorized = false
    ∧ (Auth.handler env ev).statusCode = 401
    ∧ (Auth.handler env ev).audits =
        [⟨env.timestamp, ip, none, none, "cognito", "failure",
          some "No access token provided"⟩]
    ∧ ∀ t, Auth.ExtCall.cognitoGetUser t ∉ (Auth.handler env ev).calls := by
  have hs : Auth.sourceIpOf ev = ip := sourceIpOf_eq hip hne
  have hv : Auth.validateIpAddress env (Auth.sourceIpOf ev) = true := by
    rw [hs]; exact validate_true_of_stored env ip hreach hmem
  have hh : Auth.handler env ev = Auth.credMissingOutcome env ev :=
    handler_cred_missing hparse hv htok
  refine ⟨hh, by rw [hh]; rfl, by rw [hh]; rfl, ?_, ?_⟩
  · rw [hh]; simp [Auth.credMissingOutcome, hs]
  · intro t
    rw [hh]
    simp [Auth.credMissingOutcome]

/-- Claim C8, witness: the amended theorem at a concrete allowlisted origin
with no credential. -/
theorem C8_witness : Auth.handler c8wEnv c8wEv = Auth.credMissingOutcome c8wEnv c8wEv :=
  (C8_credential_missing c8wEnv c8wEv "9.9.9.9" ⟨none, none⟩ rfl (by decide) rfl (by decide)
    rfl (Or.inl rfl)).1

/-- Claim C5, counterexample: dependency errors are NOT mapped to a distinct
system-error reason. With the allowlist store unreachable the request is
denied with the origin reason `"IP address not in allowlist"`; with the
identity provider unreachable (timeout) the whole evaluation is identical to
the one where the provider rejected the token as invalid — audit reason
`"Invalid access token"` — so provider unavailability is indistinguishable
from an invalid token in the audit reason codes. -/
theorem C5_counterexample :
    (Auth.handler c5EnvStoreDown c5Ev).audits =
      [⟨"t5", "1.1.1.1", none, none, "ip-restriction", "failure",
        some "IP address not in allowlist"⟩]
    ∧ (Auth.handler c5EnvDown c5Ev).audits =
      [⟨"t5", "1.1.1.1", none, none, "cognito", "failure",
        some "Invalid access token"⟩]
    ∧ Auth.handler c5EnvDown c5Ev = Auth.handler c5EnvReject c5Ev := by decide

/-- Claim C5, amended: the code fails closed on dependency errors but does
not distinguish them: an unreachable identity provider produces exactly the
same evaluation outcome as a provider that rejects the token (so the audit
reason is `"Invalid access token"`, conflated with credential-invalid), and
an unreachable allowlist store makes the IP gate return false (so the denial
carries the origin-not-allowed reason); the handler has no dedicated
system-error path for dependency failures. -/
theorem C5_dependency_errors_conflated (env : Auth.Env) (ev : Auth.ApiEvent) (m : String)
    (hcog : env.cognitoOutcome = Auth.CognitoOutcome.unreachable m) :
    Auth.handler env ev =
      Auth.handler { env with cognitoOutcome := Auth.CognitoOutcome.reject m } ev
    ∧ ∀ ip, env.storeReachable = false → Auth.validateIpAddress env ip = false := by
  constructor
  · obtain ⟨ts, sr, si, co, pr⟩ := env
    simp only at hcog
    subst hcog
    rfl
  · intro ip h
    simp [Auth.validateIpAddress, h]

/-- Claim C5, witness: the amended theorem at the concrete
provider-unreachable environment. -/
theorem C5_witness :
    Auth.handler c5EnvDown c5Ev =
      Auth.handler { c5EnvDown with cognitoOutcome := Auth.CognitoOutcome.reject "connect timeout" } c5Ev :=
  (C5_dependency_errors_conflated c5EnvDown c5Ev "connect timeout" rfl).1

/-- Claim C6, counterexample: a request whose originAddress (the empty
string) is NOT in the stored allowlist, yet the identity verifier IS
invoked: the empty origin is replaced by `"unknown"`, which is in the
stored list, so the Cognito call appears in the trace. -/
theorem C6_counterexample :
    c6Ev.sourceIp = some ""
    ∧ (Auth.storedAllowlist c6Env).contains "" = false
    ∧ (Auth.handler c6Env c6Ev).calls =
        [Auth.ExtCall.storeGet, Auth.ExtCall.cognitoGetUser "zz"] := by decide

/-- Claim C6, amended: the call trace of every evaluation is one of
`[]`, `[storeGet]`, or `[storeGet, cognitoGetUser t]` — so the allowlist
read always precedes any identity-provider invocation — and for every
request with a present, non-empty originAddress that is not in the stored
allowlist, the identity verifier is never invoked. -/
theorem C6_origin_gate_precedes_verifier (env : Auth.Env) (ev : Auth.ApiEvent) :
    ((Auth.handler env ev).calls = []
      ∨ (Auth.handler env ev).calls = [Auth.ExtCall.storeGet]
      ∨ ∃ t, (Auth.handler env ev).calls =
          [Auth.ExtCall.storeGet, Auth.ExtCall.cognitoGetUser t])
    ∧ ∀ ip, ev.sourceIp = some ip → ip ≠ "" →
        (Auth.storedAllowlist env).contains ip = false →
        ∀ t, Auth.ExtCall.cognitoGetUser t ∉ (Auth.handler env ev).calls := by
  constructor
  · rcases handler_shape_full env ev with ⟨e, _, hh⟩ | ⟨_, hh⟩ | ⟨b, _, _, _, hh⟩
      | ⟨b, t, _, _, _, _, _, hh⟩ | ⟨b, t, _, _, _, _, _, hh⟩ <;> rw [hh]
    · exact Or.inl rfl
    · exact Or.inr (Or.inl rfl)
    · exact Or.inr (Or.inl rfl)
    · exact Or.inr (Or.inr ⟨t, rfl⟩)
    · exact Or.inr (Or.inr ⟨t, rfl⟩)
  · intro ip hip hne hmem t
    have hs : Auth.sourceIpOf ev = ip := sourceIpOf_eq hip hne
    have hv : Auth.validateIpAddress env (Auth.sourceIpOf ev) = false := by
      rw [hs]; exact validate_false_of_not_stored env ip hmem
    cases hp : Auth.parseBody env ev with
    | error e =>
      rw [handler_parse_error hp]
      simp [Auth.systemErrorOutcome]
    | ok b =>
      rw [handler_ip_fail hp hv]
      simp [Auth.ipFailOutcome]

/-- Claim C6, witness: at a concrete non-allowlisted, non-empty origin the
verifier is not invoked (no Cognito call in the trace). -/
theorem C6_witness :
    Auth.ExtCall.cognitoGetUser "zz" ∉ (Auth.handler c6wEnv c6wEv).calls :=
  (C6_origin_gate_precedes_verifier c6wEnv c6wEv).2 "9.9.9.9" rfl (by decide) (by decide) "zz"

/-- Claim C1, counterexample: a request whose originAddress is the empty
string is evaluated as the sentinel `"unknown"`; with `"unknown"` stored in
the allowlist and a provider-accepted credential the handler authorizes,
although the request's originAddress is not a member of the stored
allowlist — so authorized:true is produced although the origin gate, as
stated in the claim, did not pass. -/
theorem C1_counterexample :
    (Auth.handler c1Env c1Ev).response.authorized = true
    ∧ c1Ev.sourceIp = some ""
    ∧ (Auth.storedAllowlist c1Env).contains "" = false := by decide

/-- Claim C1, amended: for every request with a present, NON-EMPTY
originAddress, authorized is true exactly when the originAddress is a member
of the stored allowlist AND the identity verifier was invoked in this
evaluation and the provider accepted the credential. -/
theorem C1_dual_gate (env : Auth.Env) (ev : Auth.ApiEvent) (ip : String)
    (hip : ev.sourceIp = some ip) (hne : ip ≠ "") :
    (Auth.handler env ev).response.authorized = true ↔
      ((Auth.storedAllowlist env).contains ip = true
       ∧ (∃ t, Auth.ExtCall.cognitoGetUser t ∈ (Auth.handler env ev).calls)
       ∧ Auth.isAccept env.cognitoOutcome = true) := by
  have hs : Auth.sourceIpOf ev = ip := sourceIpOf_eq hip hne
  rcases handler_shape_full env ev with ⟨e, hp, hh⟩ | ⟨hv, hh⟩ | ⟨b, hp, hv, ht, hh⟩
    | ⟨b, t, hp, hv, ht, hte, hcv, hh⟩ | ⟨b, t, hp, hv, ht, hte, hcv, hh⟩
  · rw [hh]; simp [Auth.systemErrorOutcome]
  · rw [hh]; simp [Auth.ipFailOutcome]
  · rw [hh]; simp [Auth.credMissingOutcome]
  · have ha : Auth.isAccept env.cognitoOutcome = false := by
      rw [← valid_eq_isAccept]; exact hcv
    rw [hh]; simp [Auth.credInvalidOutcome, ha]
  · have ha : Auth.isAccept env.cognitoOutcome = true := by
      rw [← valid_eq_isAccept]; exact hcv
    rw [hs] at hv
    have hc : (Auth.storedAllowlist env).contains ip = true := stored_of_validate_true hv
    rw [hh]
    exact iff_of_true rfl ⟨hc, ⟨t, by simp [Auth.successOutcome]⟩, ha⟩

/-- Claim C1, witness: the amended dual-gate equivalence at a concrete
allowlisted origin with an accepted credential. -/
theorem C1_witness :
    (Auth.handler c1wEnv c1wEv).response.authorized = true ↔
      ((Auth.storedAllowlist c1wEnv).contains "5.5.5.5" = true
       ∧ (∃ t, Auth.ExtCall.cognitoGetUser t ∈ (Auth.handler c1wEnv c1wEv).calls)
       ∧ Auth.isAccept c1wEnv.cognitoOutcome = true) :=
  C1_dual_gate c1wEnv c1wEv "5.5.5.5" rfl (by decide)

/-- Claim C3: every evaluation — success, each failure kind, and the
system/provider error paths — emits exactly one audit record; every failure
record carries a non-empty reason (given that a thrown JavaScript `Error`
carries a non-empty message, which `JSON.parse` errors always do); and the
record's result field reflects the final decision: it is `"success"` exactly
when the response is authorized. -/
theorem C3_audit_completeness (env : Auth.Env) (ev : Auth.ApiEvent)
    (hmsg : ∀ e, env.parse = Except.error e → e.isError = true → e.message ≠ "") :
    ((Auth.handler env ev).audits).length = 1
    ∧ ∀ r ∈ (Auth.handler env ev).audits,
        (r.result = "failure" → ∃ s, r.reason = some s ∧ s ≠ "")
        ∧ (r.result = "success" ↔ (Auth.handler env ev).response.authorized = true) := by
  rcases handler_shape_full env ev with ⟨e, hp, hh⟩ | ⟨hv, hh⟩ | ⟨b, hp, hv, ht, hh⟩
    | ⟨b, t, hp, hv, ht, hte, hcv, hh⟩ | ⟨b, t, hp, hv, ht, hte, hcv, hh⟩
  · refine ⟨by rw [hh]; rfl, ?_⟩
    intro r hr
    rw [hh] at hr
    simp [Auth.systemErrorOutcome] at hr
    subst hr
    refine ⟨fun _ => ⟨_, rfl, ?_⟩, by rw [hh]; simp [Auth.systemErrorOutcome]⟩
    cases he : e.isError with
    | true => simpa using hmsg e (parse_error_src hp) he
    | false => simp
  · refine ⟨by rw [hh]; rfl, ?_⟩
    intro r hr
    rw [hh] at hr
    simp [Auth.ipFailOutcome] at hr
    subst hr
    exact ⟨fun _ => ⟨_, rfl, by simp⟩, by rw [hh]; simp [Auth.ipFailOutcome]⟩
  · refine ⟨by rw [hh]; rfl, ?_⟩
    intro r hr
    rw [hh] at hr
    simp [Auth.credMissingOutcome] at hr
    subst hr
    exact ⟨fun _ => ⟨_, rfl, by simp⟩, by rw [hh]; simp [Auth.credMissingOutcome]⟩
  · refine ⟨by rw [hh]; rfl, ?_⟩
    intro r hr
    rw [hh] at hr
    simp [Auth.credInvalidOutcome] at hr
    subst hr
    exact ⟨fun _ => ⟨_, rfl, by simp⟩, by rw [hh]; simp [Auth.credInvalidOutcome]⟩
  · refine ⟨by rw [hh]; rfl, ?_⟩
    intro r hr
    rw [hh] at hr
    simp [Auth.successOutcome] at hr
    subst hr
    exact ⟨fun hf => absurd hf (by simp), by rw [hh]; simp [Auth.successOutcome]⟩

/-- Claim C3, witness: a concrete invalid-token evaluation has exactly one
audit record. -/
theorem C3_witness : ((Auth.handler c3Env c3Ev).audits).length = 1 :=
  (C3_audit_completeness c3Env c3Ev (fun _ h _ => Except.noConfusion h)).1

/-- Claim C4, counterexample: the claim's "no field ... contains the literal
bearer-token string" fails for short tokens. The request supplies the bearer
token `"a"` via the Authorization header; the provider rejects it, and the
emitted audit record's reason field `"Invalid access token"` contains the
supplied token `"a"` as a substring. -/
theorem C4_counterexample :
    Auth.derivedToken c4Ev ⟨none, none⟩ = some "a"
    ∧ (Auth.handler c4Env c4Ev).audits =
        [⟨"2024-01-01T00:00:00Z", "203.0.113.5", none, none, "cognito", "failure",
          some "Invalid access token"⟩]
    ∧ strContains "Invalid access token" "a" = true := by decide

/-- Claim C4, amended: the handler never copies the bearer token itself into
an audit record. Every audit field is either one of the handler's fixed
literal strings or an environment-supplied string (timestamp, source
address, provider-returned username / sub attribute, thrown error message);
hence for every string `tok` — in particular the supplied bearer token —
that is not a substring of those environment-supplied strings nor of the
fixed literals, no field of any emitted audit record contains `tok`. -/
theorem C4_no_token_in_audit (env : Auth.Env) (ev : Auth.ApiEvent) (tok : String)
    (hts : strContains env.timestamp tok = false)
    (hipf : strContains (Auth.sourceIpOf ev) tok = false)
    (hcog : ∀ u a, env.cognitoOutcome = Auth.CognitoOutcome.accept u a →
        (∀ s, u = some s → strContains s tok = false)
        ∧ (∀ s, Auth.findSub (a.getD []) = some s → strContains s tok = false))
    (herr : ∀ e, env.parse = Except.error e → strContains e.message tok = false)
    (hfix : ∀ s ∈ Auth.fixedAuditStrings, strContains s tok = false) :
    ∀ r ∈ (Auth.handler env ev).audits, Auth.auditNoLeak r tok := by
  have f1 : strContains "ip-restriction" tok = false := hfix _ (by simp [Auth.fixedAuditStrings])
  have f2 : strContains "cognito" tok = false := hfix _ (by simp [Auth.fixedAuditStrings])
  have f3 : strContains "dual-validation" tok = false := hfix _ (by simp [Auth.fixedAuditStrings])
  have f4 : strContains "system" tok = false := hfix _ (by simp [Auth.fixedAuditStrings])
  have f5 : strContains "success" tok = false := hfix _ (by simp [Auth.fixedAuditStrings])
  have f6 : strContains "failure" tok = false := hfix _ (by simp [Auth.fixedAuditStrings])
  have f7 : strContains "IP address not in allowlist" tok = false :=
    hfix _ (by simp [Auth.fixedAuditStrings])
  have f8 : strContains "No access token provided" tok = false :=
    hfix _ (by simp [Auth.fixedAuditStrings])
  have f9 : strContains "Invalid access token" tok = false :=
    hfix _ (by simp [Auth.fixedAuditStrings])
  have f10 : strContains "Unknown error" tok = false :=
    hfix _ (by simp [Auth.fixedAuditStrings])
  rcases handler_shape_full env ev with ⟨e, hp, hh⟩ | ⟨hv, hh⟩ | ⟨b, hp, hv, ht, hh⟩
    | ⟨b, t, hp, hv, ht, hte, hcv, hh⟩ | ⟨b, t, hp, hv, ht, hte, hcv, hh⟩ <;>
    intro r hr <;> rw [hh] at hr
  · simp [Auth.systemErrorOutcome] at hr
    subst hr
    refine ⟨hts, hipf, by simp, by simp, f4, f6, ?_⟩
    intro s hs
    cases hs
    cases he : e.isError with
    | true => simpa using herr e (parse_error_src hp)
    | false => simpa using f10
  · simp [Auth.ipFailOutcome] at hr
    subst hr
    exact ⟨hts, hipf, by simp, by simp, f1, f6, by intro s hs; cases hs; exact f7⟩
  · simp [Auth.credMissingOutcome] at hr
    subst hr
    exact ⟨hts, hipf, by simp, by simp, f2, f6, by intro s hs; cases hs; exact f8⟩
  · simp [Auth.credInvalidOutcome] at hr
    subst hr
    exact ⟨hts, hipf, by simp, by simp, f2, f6, by intro s hs; cases hs; exact f9⟩
  · simp [Auth.successOutcome] at hr
    subst hr
    obtain ⟨u, a, hco, hval⟩ := accept_of_valid hcv
    refine ⟨hts, hipf, ?_, ?_, f3, f5, by simp⟩
    · intro s hs
      rw [hval] at hs
      exact (hcog u a hco).2 s hs
    · intro s hs
      rw [hval] at hs
      exact (hcog u a hco).1 s hs

/-- Claim C4, witness: the amended theorem at a concrete evaluation with the
long token `"SECRET-TOKEN-123"`; the success-path audit record leaks
nothing. -/
theorem C4_witness :
    Auth.auditNoLeak
      ⟨"2024-02-02T00:00:00Z", "198.51.100.7", some "user-1", some "alice",
       "dual-validation", "success", none⟩ "SECRET-TOKEN-123" :=
  C4_no_token_in_audit c4wEnv c4wEv "SECRET-TOKEN-123" (by decide) (by decide)
    (by
      intro u a h
      have h2 : Auth.CognitoOutcome.accept (some "alice")
          (some [⟨"sub", some "user-1"⟩]) = Auth.CognitoOutcome.accept u a := h
      cases h2
      constructor
      · intro s hs
        have hs2 : some "alice" = some s := hs
        cases hs2
        decide
      · intro s hs
        have hs2 : some "user-1" = some s := hs
        cases hs2
        decide)
    (fun _ h => Except.noConfusion h)
    (by decide)
    _ (by decide)
